import Mathlib

/-!
Verification of the s3-account-finder repository: a shallow embedding of the
ephemeral-role lifecycle manager and the resilient probing executor, with
theorems settling the specification's claims against the code.

Sources embedded:
* src/internal/roles.go — retry/backoff executor, retryable-error
  classification, the recursive `contains` helper, the rate-limited S3 client.
* src/unnamed/part_003 (package internal role management) — DeleteS3Role,
  AttachInlinePolicy, DetachInlinePolicy over an IAM collaborator.
* src/s3accountfinder.go — the main run: conflict handling, role creation,
  deferred cleanup, probe issuing, and Go's exit semantics (log.Fatal calls
  os.Exit, which does NOT run deferred functions).
-/

namespace S3AccountFinder

/-! ## Constants from src/internal/roles.go (durations in nanoseconds) -/

/-- `maxRetries = 3` from roles.go. -/
def maxRetries : Nat := 3

/-- `baseDelay = 1 * time.Second` (in nanoseconds). -/
def baseDelay : Nat := 1000000000

/-- `maxDelay = 30 * time.Second` (in nanoseconds). -/
def maxDelay : Nat := 30000000000

/-- `rateLimitDelay = 100 * time.Millisecond` (in nanoseconds). -/
def rateLimitDelay : Nat := 100000000

/-- The backoff computed in WithRetry before attempt `attempt` (1-based for
retries): `min(baseDelay * 2^(attempt-1), maxDelay)`.  The Go code computes
this in float64; for every attempt index reachable under `maxRetries = 3`
the float computation is exact, so the Nat formula is a faithful embedding. -/
def backoffDelay (attempt : Nat) : Nat :=
  min (baseDelay * 2 ^ (attempt - 1)) maxDelay

/-! ## contains and isRetryable from src/internal/roles.go -/

/-- The recursive helper `contains(s, substr)` from roles.go, on the
character lists of the two strings:
`len(s) >= len(substr) && s[:len(substr)] == substr || len(s) > len(substr) && contains(s[1:], substr)`. -/
def containsGo : List Char → List Char → Bool
  | [], substr =>
      decide (substr.length ≤ ([] : List Char).length)
        && (([] : List Char).take substr.length == substr)
  | c :: t, substr =>
      (decide (substr.length ≤ (c :: t).length)
        && ((c :: t).take substr.length == substr))
      || (decide (substr.length < (c :: t).length) && containsGo t substr)

/-- `contains` lifted to `String` via its character data. -/
def containsStr (s substr : String) : Bool :=
  containsGo s.data substr.data

/-- The eight retryable error markers listed in `isRetryable`. -/
def retryableErrors : List String :=
  [ "RequestTimeout"
  , "ServiceUnavailable"
  , "Throttling"
  , "TooManyRequests"
  , "RequestLimitExceeded"
  , "SlowDown"
  , "RequestTimeTooSkewed"
  , "ProvisionedThroughputExceededException" ]

/-- The body of `isRetryable` applied to a non-nil error's message. -/
def isRetryableMsg (msg : String) : Bool :=
  retryableErrors.any (fun m => containsStr msg m)

/-- `isRetryable(err)` from roles.go: `false` on a nil error, otherwise the
marker scan over the error message.  A Go `error` is embedded as
`Option String` (its message). -/
def isRetryable : Option String → Bool
  | none => false
  | some msg => isRetryableMsg msg

/-! ## The resilient executor WithRetry -/

/-- Observable events of one executor run: a backoff sleep (the
`time.After` arm of the select in WithRetry), a rate-limit spacing sleep
(the `time.Sleep` in ListObjectsV2WithRetry's closure), and the issuing of
the wrapped remote operation on attempt `i`. -/
inductive Event
  | sleep (d : Nat)
  | rateSleep (d : Nat)
  | remote (i : Nat)
deriving DecidableEq, Repr

/-- Result of a WithRetry run: success, the context's cancellation error,
an immediately-surfaced non-retryable error, or retry exhaustion. -/
inductive RetryResult
  | ok
  | ctxErr
  | fatal (msg : String)
  | exhausted (msg : String)
deriving DecidableEq, Repr

/-- The loop body of `WithRetry` from roles.go.  `cancelled` embeds the
state of `ctx.Done()` (the only cancellation source); `fn attempt` yields
the events performed inside the wrapped function on that attempt together
with its returned error.  `attempt` is the loop counter, `remaining` the
number of loop iterations left (`maxRetries - attempt`), `lastErr` the
`lastErr` variable.  When `attempt > 0` the code enters the backoff select:
with the context already cancelled the `ctx.Done()` arm is immediately
ready, so `ctx.Err()` is returned without sleeping; otherwise the delay
elapses (a `sleep` event) before the next call to `fn`. -/
def withRetryGo (cancelled : Bool) (fn : Nat → List Event × Option String) :
    Nat → Nat → Option String → List Event × RetryResult
  | _, 0, lastErr =>
      ([], .exhausted ("operation failed after 3 retries: " ++ lastErr.getD ""))
  | attempt, r + 1, _lastErr =>
      if attempt > 0 && cancelled then
        ([], .ctxErr)
      else
        let pre : List Event :=
          if attempt > 0 then [.sleep (backoffDelay attempt)] else []
        match (fn attempt).2 with
        | none => (pre ++ (fn attempt).1, .ok)
        | some msg =>
            if isRetryableMsg msg then
              let rest := withRetryGo cancelled fn (attempt + 1) r (some msg)
              (pre ++ (fn attempt).1 ++ rest.1, rest.2)
            else
              (pre ++ (fn attempt).1, .fatal msg)

/-- `WithRetry(ctx, fn)` from roles.go. -/
def withRetry (cancelled : Bool) (fn : Nat → List Event × Option String) :
    List Event × RetryResult :=
  withRetryGo cancelled fn 0 maxRetries none

/-- A plain retryable function with no internal suspensions: each attempt
is exactly one remote call, returning `res i`. -/
def simpleFn (res : Nat → Option String) : Nat → List Event × Option String :=
  fun i => ([.remote i], res i)

/-- Number of remote-operation invocations recorded in a trace. -/
def remoteCount (evs : List Event) : Nat :=
  (evs.filter (fun e => match e with | .remote _ => true | _ => false)).length

/-- The backoff sleep durations of a trace, in order. -/
def sleeps (evs : List Event) : List Nat :=
  evs.filterMap (fun e => match e with | .sleep d => some d | _ => none)

/-! ## The rate-limited S3 client (ListObjectsV2WithRetry) -/

/-- The closure passed to WithRetry by `ListObjectsV2WithRetry`.
`lastCallZero` is whether `c.lastCall.IsZero()` held when the run started
(the client is fresh); since `c.lastCall = time.Now()` executes after every
call — success or error — every attempt after the first sees a non-zero
`lastCall`.  `elapsedAt i` is `time.Since(c.lastCall)` observed at attempt
`i`; when it is below the rate limit the closure sleeps the remaining delta
with a plain `time.Sleep` (no cancellation check), then issues the remote
call whose outcome is `callRes i`. -/
def listObjectsFn (lastCallZero : Bool) (elapsedAt : Nat → Nat)
    (callRes : Nat → Option String) : Nat → List Event × Option String :=
  fun i =>
    let lz := if i = 0 then lastCallZero else false
    ((if !lz && decide (elapsedAt i < rateLimitDelay) then
        [.rateSleep (rateLimitDelay - elapsedAt i)]
      else []) ++ [.remote i],
     callRes i)

/-- `ListObjectsV2WithRetry` from roles.go: the rate-limiting closure run
under WithRetry. -/
def listObjectsV2WithRetry (cancelled : Bool) (lastCallZero : Bool)
    (elapsedAt : Nat → Nat) (callRes : Nat → Option String) :
    List Event × RetryResult :=
  withRetry cancelled (listObjectsFn lastCallZero elapsedAt callRes)

/-! ## Correctness of contains and isRetryable (claim C10) -/

theorem containsGo_eq_true_iff (s sub : List Char) :
    containsGo s sub = true ↔ sub <:+: s := by
  induction s with
  | nil =>
      simp only [containsGo, List.length_nil, List.take_nil, Bool.and_eq_true,
        decide_eq_true_eq, beq_iff_eq, List.infix_nil, Nat.le_zero, List.length_eq_zero]
      constructor
      · rintro ⟨rfl, _⟩; rfl
      · rintro rfl; exact ⟨rfl, rfl⟩
  | cons c t ih =>
      rw [List.infix_cons_iff]
      simp only [containsGo, Bool.or_eq_true, Bool.and_eq_true, decide_eq_true_eq, beq_iff_eq]
      constructor
      · rintro (⟨hle, htake⟩ | ⟨hlt, hc⟩)
        · left
          rw [List.prefix_iff_eq_take]
          exact htake.symm
        · right
          exact ih.mp hc
      · rintro (hpre | hinf)
        · left
          exact ⟨hpre.length_le, (List.prefix_iff_eq_take.mp hpre).symm⟩
        · right
          refine ⟨?_, ih.mpr hinf⟩
          have := hinf.length_le
          simp only [List.length_cons]
          omega

/-- C10: the recursive helper `contains(s, substr)` (total by structural
recursion on `s`) returns true exactly when `substr` occurs as a contiguous
substring of `s`; consequently `isRetryable(err)` is true exactly when
`err` is non-nil and its message contains one of the eight listed retryable
error markers. -/
theorem contains_substring_isRetryable_markers :
    (∀ s sub : List Char, containsGo s sub = true ↔ sub <:+: s) ∧
    retryableErrors.length = 8 ∧
    (∀ err : Option String,
      isRetryable err = true ↔
        ∃ msg, err = some msg ∧ ∃ m ∈ retryableErrors, m.data <:+: msg.data) := by
  refine ⟨containsGo_eq_true_iff, rfl, ?_⟩
  intro err
  cases err with
  | none => simp [isRetryable]
  | some msg =>
      simp [isRetryable, isRetryableMsg, containsStr, List.any_eq_true,
        containsGo_eq_true_iff]

/-! ## Claim C2: attempt bound and backoff schedule -/

/-- C2: for an operation whose failures are all classified retryable,
WithRetry makes at most 3 attempts, and the backoff sleeps inserted before
retries are exactly `min(baseDelay * 2^(k-1), maxDelay)` for retry index
`k`, hence non-decreasing and bounded by the cap. -/
theorem withRetry_attempt_bound_and_backoff (res : Nat → Option String)
    (hall : ∀ i msg, res i = some msg → isRetryableMsg msg = true) :
    remoteCount (withRetry false (simpleFn res)).1 ≤ 3 ∧
    sleeps (withRetry false (simpleFn res)).1 =
      ((List.range (remoteCount (withRetry false (simpleFn res)).1)).tail).map
        (fun k => min (baseDelay * 2 ^ (k - 1)) maxDelay) ∧
    List.Chain' (· ≤ ·) (sleeps (withRetry false (simpleFn res)).1) ∧
    ((sleeps (withRetry false (simpleFn res)).1).all
        (fun d => decide (d ≤ maxDelay)) = true) := by
  rcases h0 : res 0 with _ | m0
  · simp [withRetry, withRetryGo, simpleFn, h0, maxRetries, remoteCount, sleeps]
  · have hr0 := hall 0 m0 h0
    rcases h1 : res 1 with _ | m1
    · simp [withRetry, withRetryGo, simpleFn, h0, h1, hr0, maxRetries, remoteCount, sleeps,
        backoffDelay, baseDelay, maxDelay]
    · have hr1 := hall 1 m1 h1
      rcases h2 : res 2 with _ | m2
      · simp [withRetry, withRetryGo, simpleFn, h0, h1, h2, hr0, hr1, maxRetries, remoteCount,
          sleeps, backoffDelay, baseDelay, maxDelay]
        decide
      · have hr2 := hall 2 m2 h2
        simp [withRetry, withRetryGo, simpleFn, h0, h1, h2, hr0, hr1, hr2, maxRetries,
          remoteCount, sleeps, backoffDelay, baseDelay, maxDelay]
        decide

/-- Witness for C2 at the concrete always-throttled operation. -/
theorem withRetry_attempt_bound_and_backoff_witness :
    remoteCount (withRetry false (simpleFn (fun _ => some "Throttling"))).1 ≤ 3 ∧
    sleeps (withRetry false (simpleFn (fun _ => some "Throttling"))).1 =
      ((List.range
          (remoteCount (withRetry false (simpleFn (fun _ => some "Throttling"))).1)).tail).map
        (fun k => min (baseDelay * 2 ^ (k - 1)) maxDelay) ∧
    List.Chain' (· ≤ ·) (sleeps (withRetry false (simpleFn (fun _ => some "Throttling"))).1) ∧
    ((sleeps (withRetry false (simpleFn (fun _ => some "Throttling"))).1).all
        (fun d => decide (d ≤ maxDelay)) = true) :=
  withRetry_attempt_bound_and_backoff (fun _ => some "Throttling")
    (by intro i msg h; cases h; decide)

/-! ## Claim C9: a fatal first failure aborts after one attempt -/

/-- C9: when the first invocation fails with a non-retryable (fatal) error,
WithRetry returns that error after the single first attempt: the trace is
exactly one remote call, with no backoff sleep and no second invocation. -/
theorem withRetry_fatal_single_attempt (res : Nat → Option String) (msg : String)
    (h0 : res 0 = some msg) (hfatal : isRetryableMsg msg = false) :
    withRetry false (simpleFn res) = ([.remote 0], .fatal msg) ∧
    remoteCount (withRetry false (simpleFn res)).1 = 1 ∧
    sleeps (withRetry false (simpleFn res)).1 = [] := by
  have heq : withRetry false (simpleFn res) = ([.remote 0], .fatal msg) := by
    simp [withRetry, withRetryGo, simpleFn, maxRetries, h0, hfatal]
  exact ⟨heq, by rw [heq]; rfl, by rw [heq]; rfl⟩

/-- Witness for C9 at a concrete non-retryable error. -/
theorem withRetry_fatal_single_attempt_witness :
    withRetry false (simpleFn (fun _ => some "NoSuchBucket")) =
      ([.remote 0], .fatal "NoSuchBucket") ∧
    remoteCount (withRetry false (simpleFn (fun _ => some "NoSuchBucket"))).1 = 1 ∧
    sleeps (withRetry false (simpleFn (fun _ => some "NoSuchBucket"))).1 = [] :=
  withRetry_fatal_single_attempt (fun _ => some "NoSuchBucket") "NoSuchBucket" rfl (by decide)

/-! ## Claim C4: cancellation checks -/

/-- Counterexample to C4: with the cancellation signal already set, the
executor still completes a full rate-limit spacing sleep and issues the
attempt instead of returning the cancellation outcome immediately — the
rate-limit `time.Sleep` and the attempt issuance are not guarded by any
cancellation check. -/
theorem listObjects_cancelled_still_sleeps_and_calls :
    (listObjectsV2WithRetry true false (fun _ => 0)
        (fun _ => some "AccessDenied")).2 ≠ .ctxErr ∧
    Event.rateSleep rateLimitDelay ∈
      (listObjectsV2WithRetry true false (fun _ => 0)
        (fun _ => some "AccessDenied")).1 ∧
    Event.remote 0 ∈
      (listObjectsV2WithRetry true false (fun _ => 0)
        (fun _ => some "AccessDenied")).1 := by
  decide

/-- C4 amended: cancellation is checked only at the retry boundary before a
backoff sleep.  The first attempt — including any rate-limit spacing sleep
inside it — always proceeds even when the signal is set; once a retryable
failure brings the executor to the backoff select with the signal set, it
returns the context error without performing any backoff sleep. -/
theorem withRetry_cancellation_only_before_backoff (lastCallZero : Bool)
    (elapsedAt : Nat → Nat) (callRes : Nat → Option String) (msg : String)
    (h0 : callRes 0 = some msg) (hr : isRetryableMsg msg = true) :
    listObjectsV2WithRetry true lastCallZero elapsedAt callRes =
      ((listObjectsFn lastCallZero elapsedAt callRes 0).1, .ctxErr) ∧
    Event.remote 0 ∈ (listObjectsFn lastCallZero elapsedAt callRes 0).1 ∧
    sleeps (listObjectsV2WithRetry true lastCallZero elapsedAt callRes).1 = [] := by
  have heq : listObjectsV2WithRetry true lastCallZero elapsedAt callRes =
      ((listObjectsFn lastCallZero elapsedAt callRes 0).1, .ctxErr) := by
    simp [listObjectsV2WithRetry, withRetry, withRetryGo, maxRetries, listObjectsFn, h0, hr]
  refine ⟨heq, ?_, ?_⟩
  · simp [listObjectsFn]
  · rw [heq]
    cases hcond : (!lastCallZero && decide (elapsedAt 0 < rateLimitDelay)) <;>
      simp [sleeps, listObjectsFn, hcond]

/-- Witness for the amended C4 at a concrete throttled, cancelled run. -/
theorem withRetry_cancellation_only_before_backoff_witness :
    listObjectsV2WithRetry true false (fun _ => 0) (fun _ => some "Throttling") =
      ((listObjectsFn false (fun _ => 0) (fun _ => some "Throttling") 0).1, .ctxErr) ∧
    Event.remote 0 ∈ (listObjectsFn false (fun _ => 0) (fun _ => some "Throttling") 0).1 ∧
    sleeps (listObjectsV2WithRetry true false (fun _ => 0)
        (fun _ => some "Throttling")).1 = [] :=
  withRetry_cancellation_only_before_backoff false (fun _ => 0)
    (fun _ => some "Throttling") "Throttling" rfl (by decide)

/-! ## Policy documents (src/unnamed/part_003) -/

/-- `PolicyStatement` from the internal role-management file: the
`Condition` field `map[string]map[string]interface{}` is embedded as an
association list operator → (key → value list), matching the only shape the
code constructs (a string-list valued condition). -/
structure PolicyStatementM where
  sid : String
  effect : String
  action : List String
  principal : List (String × String)
  resource : Option String
  condition : List (String × List (String × List String))
deriving DecidableEq, Repr

/-- `PolicyDocument` from the internal role-management file. -/
structure PolicyDocumentM where
  version : String
  statement : List PolicyStatementM
deriving DecidableEq, Repr

/-- The fixed inline policy name used by AttachInlinePolicy and
DetachInlinePolicy. -/
def s3EnumerationPolicyName : String := "S3EnumerationPolicy"

/-- The policy document built by `AttachInlinePolicy`: a single Allow
statement for ListBucket/GetObject over the bucket's objects, with a
`StringEquals` condition on `s3:ExistingBucketPolicy` carrying the entire
supplied candidate account-id list. -/
def enumPolicyDocument (bucketName : String) (accountIds : List String) :
    PolicyDocumentM :=
  { version := "2012-10-17"
  , statement :=
      [ { sid := "TestS3Access"
        , effect := "Allow"
        , action := ["s3:ListBucket", "s3:GetObject"]
        , principal := []
        , resource := some ("arn:aws:s3:::" ++ bucketName ++ "/*")
        , condition :=
            [("StringEquals", [("s3:ExistingBucketPolicy", accountIds)])] } ] }

/-! ## The IAM collaborator

Modelled from the spec: the Identity-and-Access-Management collaborator of
section 6 (`createIdentity`, `deleteIdentity`, `putInlineAuthorization`,
`deleteInlineAuthorization`, `listInlineAuthorizationNames`), whose concrete
binding (the AWS IAM service) is not part of this repository.  Its state is
the set of existing role names together with the inline policies attached
to each role; a call naming a non-existent entity fails with the service's
NoSuchEntity error, `putInlineAuthorization` overwrites the policy stored
under the same name, and `deleteIdentity` refuses to delete a role that
still has inline policies attached (DeleteConflict) — which is why the code
detaches them first. -/
structure IamState where
  roles : List String
  inline : List (String × String × PolicyDocumentM)
deriving DecidableEq, Repr

/-- The inline-policy entries attached to role `r`. -/
def inlineFor (st : IamState) (r : String) : List (String × String × PolicyDocumentM) :=
  st.inline.filter (fun p => p.1 == r)

/-- Modelled from the spec: `listInlineAuthorizationNames` — the IAM
ListRolePolicies call. -/
def listRolePolicies (st : IamState) (r : String) : Except String (List String) :=
  if st.roles.contains r then
    .ok ((st.inline.filter (fun p => p.1 == r)).map (fun p => p.2.1))
  else .error "NoSuchEntity"

/-- Modelled from the spec: `putInlineAuthorization` — the IAM
PutRolePolicy call, which creates or overwrites the policy stored under
`pname`. -/
def putRolePolicy (st : IamState) (r pname : String) (doc : PolicyDocumentM) :
    Except String IamState :=
  if st.roles.contains r then
    .ok { st with
          inline := (r, pname, doc) ::
            st.inline.filter (fun p => !(p.1 == r && p.2.1 == pname)) }
  else .error "NoSuchEntity"

/-- Modelled from the spec: `deleteInlineAuthorization` — the IAM
DeleteRolePolicy call, which fails with NoSuchEntity when the role or the
named policy does not exist. -/
def deleteRolePolicy (st : IamState) (r pname : String) : Except String IamState :=
  if st.roles.contains r && st.inline.any (fun p => p.1 == r && p.2.1 == pname) then
    .ok { st with inline := st.inline.filter (fun p => !(p.1 == r && p.2.1 == pname)) }
  else .error "NoSuchEntity"

/-- Modelled from the spec: `deleteIdentity` — the IAM DeleteRole call. -/
def deleteRoleCall (st : IamState) (r : String) : Except String IamState :=
  if !st.roles.contains r then .error "NoSuchEntity"
  else if st.inline.any (fun p => p.1 == r) then .error "DeleteConflict"
  else .ok { st with roles := st.roles.filter (fun n => !(n == r)) }

/-! ## Role management from src/unnamed/part_003 -/

/-- `DeleteS3Role`: list the role's inline policies and, when the listing
succeeded, delete each one discarding any per-policy error (the Go code
ignores DeleteRolePolicy's return value); then delete the role, wrapping
any failure of the final delete as an error. -/
def DeleteS3Role (st : IamState) (roleName : String) : Except String IamState :=
  let st1 :=
    match listRolePolicies st roleName with
    | .ok names =>
        names.foldl
          (fun s n =>
            match deleteRolePolicy s roleName n with
            | .ok s' => s'
            | .error _ => s) st
    | .error _ => st
  match deleteRoleCall st1 roleName with
  | .ok st2 => .ok st2
  | .error e => .error ("failed to delete role: " ++ e)

/-- `AttachInlinePolicy`: put the enumeration policy document under the
fixed name "S3EnumerationPolicy". -/
def AttachInlinePolicy (st : IamState) (roleName bucketName : String)
    (accountIds : List String) : Except String IamState :=
  match putRolePolicy st roleName s3EnumerationPolicyName
      (enumPolicyDocument bucketName accountIds) with
  | .ok st' => .ok st'
  | .error e => .error ("failed to attach inline policy: " ++ e)

/-- `DetachInlinePolicy`: delete the inline policy named
"S3EnumerationPolicy", wrapping any failure. -/
def DetachInlinePolicy (st : IamState) (roleName : String) : Except String IamState :=
  match deleteRolePolicy st roleName s3EnumerationPolicyName with
  | .ok st' => .ok st'
  | .error e => .error ("failed to detach inline policy: " ++ e)

/-- A sequence of AttachInlinePolicy calls on one role, each call a
(bucket, candidate-list) pair. -/
def attachSeq (st : IamState) (r : String) (calls : List (String × List String)) :
    Except String IamState :=
  calls.foldlM (fun s c => AttachInlinePolicy s r c.1 c.2) st

/-- Projection used to state slot invariants: the inline policies of role
`r` after a successful call, or `none` when the call failed. -/
def okInline (e : Except String IamState) (r : String) :
    Option (List (String × String × PolicyDocumentM)) :=
  match e with
  | .ok st => some (inlineFor st r)
  | .error _ => none

/-! ## Claim C3: release (DeleteS3Role) is not idempotent -/

theorem deleteRoleCall_ok_spec (st st' : IamState) (r : String)
    (h : deleteRoleCall st r = .ok st') :
    r ∈ st.roles ∧ (st.inline.any fun p => p.1 == r) = false ∧
    st' = { st with roles := st.roles.filter (fun n => !(n == r)) } := by
  unfold deleteRoleCall at h
  by_cases hm : r ∈ st.roles
  · cases h2 : st.inline.any (fun p => p.1 == r) with
    | true => simp [hm, h2] at h
    | false =>
        simp [hm, h2] at h
        exact ⟨hm, rfl, h.symm⟩
  · simp [hm] at h

theorem deleteS3Role_absent (st : IamState) (r : String) (h : r ∉ st.roles) :
    DeleteS3Role st r = .error "failed to delete role: NoSuchEntity" := by
  unfold DeleteS3Role listRolePolicies deleteRoleCall
  simp [h]

/-- Counterexample to C3: a first release of role "r" succeeds, but
calling release a second time on the already-destroyed identity returns an
error — the "already gone" outcome is surfaced, not swallowed. -/
theorem deleteS3Role_second_release_fails :
    DeleteS3Role ⟨["r"], [("r", "S3EnumerationPolicy", enumPolicyDocument "b" ["1"])]⟩
        "r" = .ok ⟨[], []⟩ ∧
    DeleteS3Role ⟨[], []⟩ "r" = .error "failed to delete role: NoSuchEntity" :=
  ⟨rfl, rfl⟩

/-- C3 amended: a successful release leaves no attached authorization of
the identity and removes it, but release is not idempotent: a second call
on the destroyed identity fails with a wrapped NoSuchEntity error instead
of succeeding. -/
theorem deleteS3Role_release_surfaces_not_found (st st' : IamState) (r : String)
    (h : DeleteS3Role st r = .ok st') :
    (st'.inline.all fun p => !(p.1 == r)) = true ∧
    st'.roles.contains r = false ∧
    DeleteS3Role st' r = .error "failed to delete role: NoSuchEntity" := by
  unfold DeleteS3Role at h
  set st1 := (match listRolePolicies st r with
    | .ok names =>
        names.foldl
          (fun s n =>
            match deleteRolePolicy s r n with
            | .ok s' => s'
            | .error _ => s) st
    | .error _ => st) with hst1
  cases hd : deleteRoleCall st1 r with
  | error e => simp only [hd] at h; exact absurd h (by simp)
  | ok st2 =>
      simp only [hd] at h
      simp at h
      subst h
      obtain ⟨hmem, hany, hval⟩ := deleteRoleCall_ok_spec st1 st2 r hd
      subst hval
      have hnotmem : r ∉ List.filter (fun n => !(n == r)) st1.roles := by
        intro hc
        have := List.mem_filter.mp hc
        simp at this
      refine ⟨?_, ?_, ?_⟩
      · simp only [List.all_eq_true]
        intro p hp
        have := List.any_eq_false.mp (by exact hany) p hp
        simpa using this
      · simp [hnotmem]
      · exact deleteS3Role_absent _ r hnotmem

/-- Witness for the amended C3 at a concrete one-role state. -/
theorem deleteS3Role_release_surfaces_not_found_witness :
    ((⟨[], []⟩ : IamState).inline.all fun p => !(p.1 == "r")) = true ∧
    (⟨[], []⟩ : IamState).roles.contains "r" = false ∧
    DeleteS3Role ⟨[], []⟩ "r" = .error "failed to delete role: NoSuchEntity" :=
  deleteS3Role_release_surfaces_not_found
    ⟨["r"], [("r", "S3EnumerationPolicy", enumPolicyDocument "b" ["1"])]⟩
    ⟨[], []⟩ "r" rfl

/-! ## Claim C5: one attach call carries the whole candidate list -/

/-- Counterexample to C5: a single AttachInlinePolicy call with two
candidate account ids attaches one policy whose StringEquals condition
carries both candidates — the attached condition policy does not test
exactly one candidate. -/
theorem attachInlinePolicy_tests_two_candidates_at_once :
    AttachInlinePolicy ⟨["r"], []⟩ "r" "target-bucket"
        ["111111111111", "222222222222"] =
      .ok ⟨["r"], [("r", "S3EnumerationPolicy",
          enumPolicyDocument "target-bucket" ["111111111111", "222222222222"])]⟩ ∧
    (enumPolicyDocument "target-bucket" ["111111111111", "222222222222"]).statement.map
        (fun s => s.condition) =
      [[("StringEquals",
          [("s3:ExistingBucketPolicy", ["111111111111", "222222222222"])])]] ∧
    (["111111111111", "222222222222"] : List String).length ≠ 1 :=
  ⟨rfl, rfl, by decide⟩

/-- C5 amended: an AttachInlinePolicy call attaches a single policy under
the fixed slot name whose StringEquals condition lists the entire supplied
candidate list at once; the probe that follows tests all supplied
candidates together, not one candidate per probe. -/
theorem attachInlinePolicy_condition_lists_all_candidates (st st' : IamState)
    (r b : String) (ids : List String)
    (h : AttachInlinePolicy st r b ids = .ok st') :
    (inlineFor st' r).head? =
      some (r, s3EnumerationPolicyName, enumPolicyDocument b ids) ∧
    (enumPolicyDocument b ids).statement.map (fun s => s.condition) =
      [[("StringEquals", [("s3:ExistingBucketPolicy", ids)])]] := by
  unfold AttachInlinePolicy putRolePolicy at h
  by_cases hm : r ∈ st.roles
  · simp [hm] at h
    subst h
    refine ⟨?_, rfl⟩
    unfold inlineFor
    simp
  · simp [hm] at h

/-- Witness for the amended C5 at a concrete two-candidate call. -/
theorem attachInlinePolicy_condition_lists_all_candidates_witness :
    (inlineFor ⟨["r"], [("r", "S3EnumerationPolicy",
        enumPolicyDocument "b" ["111111111111", "222222222222"])]⟩ "r").head? =
      some ("r", s3EnumerationPolicyName,
        enumPolicyDocument "b" ["111111111111", "222222222222"]) ∧
    (enumPolicyDocument "b" ["111111111111", "222222222222"]).statement.map
        (fun s => s.condition) =
      [[("StringEquals",
          [("s3:ExistingBucketPolicy", ["111111111111", "222222222222"])])]] :=
  attachInlinePolicy_condition_lists_all_candidates ⟨["r"], []⟩
    ⟨["r"], [("r", "S3EnumerationPolicy",
        enumPolicyDocument "b" ["111111111111", "222222222222"])]⟩
    "r" "b" ["111111111111", "222222222222"] rfl

/-! ## Claim C6: exclusive single policy slot -/

theorem attach_step (st : IamState) (r b : String) (ids : List String)
    (hr : r ∈ st.roles)
    (hinv : inlineFor st r = [] ∨
      ∃ d, inlineFor st r = [(r, s3EnumerationPolicyName, d)]) :
    ∃ st', AttachInlinePolicy st r b ids = .ok st' ∧ st'.roles = st.roles ∧
      inlineFor st' r = [(r, s3EnumerationPolicyName, enumPolicyDocument b ids)] := by
  have hok : AttachInlinePolicy st r b ids =
      .ok { st with inline := (r, s3EnumerationPolicyName, enumPolicyDocument b ids) ::
              st.inline.filter (fun p => !(p.1 == r && p.2.1 == s3EnumerationPolicyName)) } := by
    unfold AttachInlinePolicy putRolePolicy
    simp [hr]
  refine ⟨_, hok, rfl, ?_⟩
  unfold inlineFor
  simp only [List.filter_cons, beq_self_eq_true, Bool.true_and, if_pos]
  rw [List.filter_filter]
  have hnil : (st.inline.filter fun a =>
      (a.1 == r) && !(a.1 == r && a.2.1 == s3EnumerationPolicyName)) = [] := by
    rw [List.filter_eq_nil_iff]
    intro a ha
    by_cases h1 : a.1 = r
    · have hmem : a ∈ inlineFor st r := by
        unfold inlineFor
        exact List.mem_filter.mpr ⟨ha, by simp [h1]⟩
      rcases hinv with hinv | ⟨d, hinv⟩
      · rw [hinv] at hmem
        simp at hmem
      · rw [hinv] at hmem
        simp at hmem
        subst hmem
        simp
    · simp [h1]
  rw [hnil]

theorem attachSeq_aux (r : String) (calls : List (String × List String)) :
    ∀ (cl : String × List String), calls.getLast? = some cl →
    ∀ st : IamState, r ∈ st.roles →
      (inlineFor st r = [] ∨
        ∃ d, inlineFor st r = [(r, s3EnumerationPolicyName, d)]) →
      ∃ st', attachSeq st r calls = .ok st' ∧ st'.roles = st.roles ∧
        inlineFor st' r = [(r, s3EnumerationPolicyName, enumPolicyDocument cl.1 cl.2)] := by
  induction calls with
  | nil => intro cl h; simp at h
  | cons c cs ih =>
      intro cl hlast st hr hinv
      obtain ⟨st1, he, hroles, hslot⟩ := attach_step st r c.1 c.2 hr hinv
      cases cs with
      | nil =>
          have hcl : cl = c := by
            simp [List.getLast?] at hlast
            exact hlast.symm
          subst hcl
          refine ⟨st1, ?_, hroles, hslot⟩
          simp [attachSeq, he]
      | cons c2 cs2 =>
          have hlast2 : (c2 :: cs2).getLast? = some cl := by
            rw [← hlast]
            simp [List.getLast?_cons_cons]
          have hr1 : r ∈ st1.roles := by rw [hroles]; exact hr
          obtain ⟨st2, he2, hroles2, hslot2⟩ :=
            ih cl hlast2 st1 hr1 (Or.inr ⟨_, hslot⟩)
          refine ⟨st2, ?_, ?_, hslot2⟩
          · simp only [attachSeq, List.foldlM_cons] at he2 ⊢
            rw [he]
            simpa using he2
          · rw [hroles2, hroles]

/-- C6: after any non-empty sequence of AttachInlinePolicy calls on an
identity that starts with no inline policies, exactly one condition
policy is attached — stored under the fixed name "S3EnumerationPolicy" so
re-attachment overwrites rather than accumulates — and its content is the
document of the most recent call. -/
theorem attachSeq_exactly_one_policy_slot (st : IamState) (r : String)
    (calls : List (String × List String)) (cl : String × List String)
    (hr : r ∈ st.roles) (hempty : inlineFor st r = [])
    (hlast : calls.getLast? = some cl) :
    okInline (attachSeq st r calls) r =
      some [(r, s3EnumerationPolicyName, enumPolicyDocument cl.1 cl.2)] := by
  obtain ⟨st', h1, _, h3⟩ := attachSeq_aux r calls cl hlast st hr (Or.inl hempty)
  simp [okInline, h1, h3]

/-- Witness for C6 at a concrete two-call sequence. -/
theorem attachSeq_exactly_one_policy_slot_witness :
    okInline (attachSeq ⟨["r"], []⟩ "r"
        [("b1", ["111111111111"]), ("b2", ["222222222222"])]) "r" =
      some [("r", s3EnumerationPolicyName, enumPolicyDocument "b2" ["222222222222"])] :=
  attachSeq_exactly_one_policy_slot ⟨["r"], []⟩ "r"
    [("b1", ["111111111111"]), ("b2", ["222222222222"])] ("b2", ["222222222222"])
    (by simp) rfl rfl

/-! ## Claim C8: detach is not an idempotent no-op -/

theorem detach_no_slot (st : IamState) (r : String)
    (h : (st.inline.any fun p => p.1 == r && p.2.1 == s3EnumerationPolicyName) = false) :
    DetachInlinePolicy st r = .error "failed to detach inline policy: NoSuchEntity" := by
  unfold DetachInlinePolicy deleteRolePolicy
  simp [h]

/-- Counterexample to C8: detaching when no condition policy is attached
is not a no-op success — it returns a wrapped NoSuchEntity error. -/
theorem detachInlinePolicy_noop_fails :
    DetachInlinePolicy ⟨["r"], []⟩ "r" =
      .error "failed to detach inline policy: NoSuchEntity" :=
  rfl

/-- C8 amended: a successful detach removes the condition policy, and
repeating the detach immediately afterwards fails with a wrapped
NoSuchEntity error — detach is not idempotent and is not a no-op when
nothing is attached. -/
theorem detachInlinePolicy_remove_then_error (st st' : IamState) (r : String)
    (h : DetachInlinePolicy st r = .ok st') :
    (st'.inline.all fun p => !(p.1 == r && p.2.1 == s3EnumerationPolicyName)) = true ∧
    DetachInlinePolicy st' r = .error "failed to detach inline policy: NoSuchEntity" := by
  unfold DetachInlinePolicy deleteRolePolicy at h
  cases hc : (st.roles.contains r &&
      st.inline.any fun p => p.1 == r && p.2.1 == s3EnumerationPolicyName) with
  | false => rw [hc] at h; simp at h
  | true =>
      rw [hc] at h
      simp at h
      subst h
      have hmem : ∀ p ∈ (st.inline.filter fun a =>
          !a.1 == r || !a.2.1 == s3EnumerationPolicyName),
          (p.1 == r && p.2.1 == s3EnumerationPolicyName) = false := by
        intro p hp
        have h2 := (List.mem_filter.mp hp).2
        cases hb1 : (p.1 == r) <;> cases hb2 : (p.2.1 == s3EnumerationPolicyName) <;>
          simp_all
      constructor
      · simp only [List.all_eq_true]
        intro p hp
        simp [hmem p hp]
      · apply detach_no_slot
        simp only [List.any_eq_false]
        intro p hp
        simp [hmem p hp]

/-- Witness for the amended C8 at a concrete attached state. -/
theorem detachInlinePolicy_remove_then_error_witness :
    ((⟨["r"], []⟩ : IamState).inline.all
        fun p => !(p.1 == "r" && p.2.1 == s3EnumerationPolicyName)) = true ∧
    DetachInlinePolicy ⟨["r"], []⟩ "r" =
      .error "failed to detach inline policy: NoSuchEntity" :=
  detachInlinePolicy_remove_then_error
    ⟨["r"], [("r", "S3EnumerationPolicy", enumPolicyDocument "b" ["1"])]⟩
    ⟨["r"], []⟩ "r" rfl

/-! ## The main run (src/s3accountfinder.go)

The control flow of `main` as a trace of external calls together with its
exit kind.  Go semantics embedded here: `defer` runs the registered cleanup
on a normal return from `main`, but `log.Fatal` / `log.Fatalf` call
`os.Exit(1)`, and `os.Exit` terminates the process WITHOUT running deferred
functions. -/

/-- External calls performed by `main`, one constructor per call site. -/
inductive MainEvent
  | loadConfig
  | getCallerIdentity
  | getRole
  | deleteExistingRole
  | createRole
  | assumeConfig
  | listObjects
  | releaseRole
deriving DecidableEq, Repr

/-- How the process ends: the early `flag.Usage(); return` on an empty
path, an `os.Exit(1)` (via `log.Fatal*` or explicit), or a normal return
from `main`. -/
inductive ExitKind
  | usageReturn
  | exitFail (msg : String)
  | normalReturn
deriving DecidableEq, Repr

/-- Outcomes of the external calls a run makes, supplied as an oracle.
`roleExists` is `err == nil && roleInfo.Role != nil` for the GetRole probe. -/
structure MainEnv where
  loadConfigOk : Bool
  getCallerOk : Bool
  roleExists : Bool
  deleteExistingOk : Bool
  createRoleOk : Bool
  assumeConfigOk : Bool
  listObjectsOk : Bool
  cleanupOk : Bool
deriving DecidableEq, Repr

/-- `parts := strings.SplitN(*path, "/", 2); bucket := parts[0]`: the part
of the path before the first slash (the whole path when it has none). -/
def bucketOf (path : String) : String :=
  String.mk (path.data.takeWhile (fun c => !(c == '/')))

/-- The run of `main` from s3accountfinder.go: the trace of external calls
in order, and the exit kind.  The deferred cleanup (`releaseRole`) is
registered only after a successful CreateS3Role and — per Go semantics —
executes only on the normal-return path; every `log.Fatal`/`os.Exit` path
after registration skips it. -/
def mainRun (path : String) (deleteFlag : Bool) (env : MainEnv) :
    List MainEvent × ExitKind :=
  if path == "" then ([], .usageReturn)
  else if !env.loadConfigOk then
    ([.loadConfig], .exitFail "failed to load AWS config")
  else if !env.getCallerOk then
    ([.loadConfig, .getCallerIdentity], .exitFail "failed to get caller identity")
  else
    let t0 : List MainEvent := [.loadConfig, .getCallerIdentity, .getRole]
    if env.roleExists && !deleteFlag then
      (t0, .exitFail "Role already exists. Use --delete-existing-role to remove it first")
    else
      let t1 := if env.roleExists && deleteFlag then t0 ++ [.deleteExistingRole] else t0
      if env.roleExists && deleteFlag && !env.deleteExistingOk then
        (t1, .exitFail "Failed to delete existing role")
      else if !env.createRoleOk then
        (t1 ++ [.createRole], .exitFail "Failed to create role")
      else
        let t2 := t1 ++ [.createRole]
        if !env.assumeConfigOk then
          (t2 ++ [.assumeConfig], .exitFail "failed to assume role")
        else
          let t3 := t2 ++ [.assumeConfig]
          if bucketOf path == "" then
            (t3, .exitFail "Invalid path: bucket name cannot be empty")
          else if !env.listObjectsOk then
            (t3 ++ [.listObjects], .exitFail "Failed to list S3 objects")
          else
            (t3 ++ [.listObjects, .releaseRole], .normalReturn)

/-! ## Claim C1: teardown is NOT guaranteed on every exit path -/

/-- The environment of the failing run: everything succeeds until the
probe call (ListObjectsV2WithRetry) fails. -/
def c1Env : MainEnv :=
  { loadConfigOk := true, getCallerOk := true, roleExists := false
  , deleteExistingOk := true, createRoleOk := true, assumeConfigOk := true
  , listObjectsOk := false, cleanupOk := true }

/-- The all-success environment of the same run. -/
def c1OkEnv : MainEnv :=
  { loadConfigOk := true, getCallerOk := true, roleExists := false
  , deleteExistingOk := true, createRoleOk := true, assumeConfigOk := true
  , listObjectsOk := true, cleanupOk := true }

/-- C1 fails on the code: on the probe-failure exit path the run creates
the ephemeral role but issues ZERO release calls — `log.Fatalf` exits the
process without running the deferred cleanup — while on the success path
exactly one release is issued.  The role created by the failing run leaks. -/
theorem mainRun_probe_failure_skips_release :
    (mainRun "bucket" false c1Env).1.count MainEvent.createRole = 1 ∧
    (mainRun "bucket" false c1Env).1.count MainEvent.releaseRole = 0 ∧
    (mainRun "bucket" false c1Env).2 = .exitFail "Failed to list S3 objects" ∧
    (mainRun "bucket" false c1OkEnv).1.count MainEvent.createRole = 1 ∧
    (mainRun "bucket" false c1OkEnv).1.count MainEvent.releaseRole = 1 ∧
    (mainRun "bucket" false c1OkEnv).2 = .normalReturn :=
  ⟨rfl, rfl, rfl, rfl, rfl, rfl⟩

/-! ## Claim C7: conflict with the Fail policy aborts before any probe -/

/-- C7: when an identity with the requested name already exists and the
delete-existing-role flag is not set, the run aborts with the
already-exists error before creating anything, probing anything, or
mutating or releasing the pre-existing identity. -/
theorem mainRun_conflict_fail_aborts_before_probe (path : String) (env : MainEnv)
    (hpath : (path == "") = false)
    (hload : env.loadConfigOk = true) (hcaller : env.getCallerOk = true)
    (hexists : env.roleExists = true) :
    mainRun path false env =
      ([.loadConfig, .getCallerIdentity, .getRole],
        .exitFail "Role already exists. Use --delete-existing-role to remove it first") ∧
    (mainRun path false env).1.count MainEvent.createRole = 0 ∧
    (mainRun path false env).1.count MainEvent.deleteExistingRole = 0 ∧
    (mainRun path false env).1.count MainEvent.releaseRole = 0 ∧
    (mainRun path false env).1.count MainEvent.listObjects = 0 := by
  have heq : mainRun path false env =
      ([.loadConfig, .getCallerIdentity, .getRole],
        .exitFail "Role already exists. Use --delete-existing-role to remove it first") := by
    simp [mainRun, hpath, hload, hcaller, hexists]
  exact ⟨heq, by rw [heq]; rfl, by rw [heq]; rfl, by rw [heq]; rfl, by rw [heq]; rfl⟩

/-- Witness for C7 at a concrete path and environment. -/
theorem mainRun_conflict_fail_aborts_before_probe_witness :
    mainRun "bucket" false ⟨true, true, true, true, true, true, true, true⟩ =
      ([.loadConfig, .getCallerIdentity, .getRole],
        .exitFail "Role already exists. Use --delete-existing-role to remove it first") ∧
    (mainRun "bucket" false ⟨true, true, true, true, true, true, true, true⟩).1.count
        MainEvent.createRole = 0 ∧
    (mainRun "bucket" false ⟨true, true, true, true, true, true, true, true⟩).1.count
        MainEvent.deleteExistingRole = 0 ∧
    (mainRun "bucket" false ⟨true, true, true, true, true, true, true, true⟩).1.count
        MainEvent.releaseRole = 0 ∧
    (mainRun "bucket" false ⟨true, true, true, true, true, true, true, true⟩).1.count
        MainEvent.listObjects = 0 :=
  mainRun_conflict_fail_aborts_before_probe "bucket"
    ⟨true, true, true, true, true, true, true, true⟩ rfl rfl rfl rfl

end S3AccountFinder
